import Mathlib

/-!
Verification development for the CAM4 standalone status-checking client.

The repository contains two near-duplicate standalone implementations of the
performer-status resolution pipeline:

  * `src/cam4_standalone.py`            (primary, modelled by the plain names)
  * `src/standalone/cam4_standalone.py` (variant, modelled by the `...2` names)

The pipeline chains three dependent network requests (profile lookup, stream
descriptor lookup, playlist accessibility probe) and classifies the outcome
into one of five terminal states.  We give a shallow embedding of the Python
code: the injected HTTP transport is modelled by the outcome of each of the
(at most) three requests, JSON parsing by the `requests` library is modelled
by supplying the parse result (`none` when parsing fails) as part of the
transport outcome, and Python exception flow is modelled with `Except`.
Character case operations are modelled on ASCII, which covers every marker
string the code inspects.
-/

/-- The five-state classification, from `class PerformerStatus(Enum)`. -/
inductive PerformerStatus : Type where
  | NOT_FOUND
  | OFFLINE
  | ONLINE_NOT_STREAMING
  | PRIVATE_OR_AWAY
  | STREAMING
deriving DecidableEq, Repr

/-- Python values produced by JSON decoding (`response.json()`).  Numbers are
modelled as integers, which suffices for every field the code inspects. -/
inductive PyJson : Type where
  | null : PyJson
  | bool : Bool → PyJson
  | num : Int → PyJson
  | str : String → PyJson
  | arr : List PyJson → PyJson
  | dict : List (String × PyJson) → PyJson

/-- Python truthiness (`if not x`) for decoded JSON values. -/
def PyJson.truthy : PyJson → Bool
  | .null => false
  | .bool b => b
  | .num n => n != 0
  | .str s => s != ""
  | .arr xs => !xs.isEmpty
  | .dict fs => !fs.isEmpty

/-- The result record, from `@dataclass class PerformerInfo`.  `stream_url`
holds the raw JSON value taken from the descriptor (`cdnURL`). -/
structure PerformerInfo where
  username : String
  status : PerformerStatus
  stream_url : Option PyJson
  thumbnail_url : Option String
  error_message : Option String

/-- Exceptions that can escape `check_performer` / `record_stream`:
`CAM4Error` (carrying a message and a classification) and the uncaught
builtin errors reachable from attribute access or subscripting on a decoded
JSON value that is not a dict. -/
inductive PyErr : Type where
  | cam4Error (message : Option String) (status : PerformerStatus)
  | attributeError
  | keyError
  | typeError

/-- Python `v.get(key, default)`: defined on dicts, raises `AttributeError`
on any other value. -/
def pyGet (v : PyJson) (key : String) (dflt : PyJson) : Except PyErr PyJson :=
  match v with
  | .dict fs => .ok ((fs.lookup key).getD dflt)
  | _ => .error .attributeError

/-- Python `v[key]`: dict lookup, `KeyError` when missing, `TypeError` on a
value that is not subscriptable by a string key. -/
def pySubscript (v : PyJson) (key : String) : Except PyErr PyJson :=
  match v with
  | .dict fs =>
    match fs.lookup key with
    | some x => .ok x
    | none => .error .keyError
  | _ => .error .typeError

/-- Python f-string interpolation of an optional string (`None` renders as
the text "None"). -/
def pyStrOfOpt : Option String → String
  | some s => s
  | none => "None"

/-- An HTTP response to one of the two JSON API requests.  `json` is the
result of `response.json()` on the body: `none` models a body on which JSON
decoding raises (including an empty body). -/
structure ApiResponse where
  status : Nat
  json : Option PyJson

/-- Outcome of issuing an API request through the transport: a response, or
a transport fault (`requests.exceptions.RequestException`: timeout,
connection error, ...). -/
inductive ApiOutcome : Type where
  | ok (r : ApiResponse)
  | exc

/-- An HTTP response to the playlist accessibility probe; only the status
code and the body text are inspected. -/
structure ProbeResponse where
  status : Nat
  text : String

/-- Outcome of the probe request: a response, or a transport fault carrying
the exception text that Python would interpolate into the error message. -/
inductive ProbeOutcome : Type where
  | ok (r : ProbeResponse)
  | exc (msg : String)

/-- The injected transport, fixed for one resolution call: the outcome each
of the three (at most) requests would have if issued. -/
structure Transport where
  profile : ApiOutcome
  stream : ApiOutcome
  probe : ProbeOutcome

/-- `startsWithChars hs n`: the character list `hs` starts with `n`. -/
def startsWithChars : List Char → List Char → Bool
  | _, [] => true
  | [], _ :: _ => false
  | a :: as, b :: bs => a == b && startsWithChars as bs

/-- `hasSubChars hs n`: `n` occurs contiguously inside `hs`. -/
def hasSubChars : List Char → List Char → Bool
  | [], n => startsWithChars [] n
  | a :: as, n => startsWithChars (a :: as) n || hasSubChars as n

/-- Python `needle in haystack` on strings: substring containment. -/
def strContains (haystack needle : String) : Bool :=
  hasSubChars haystack.data needle.data

/-- Python `s.lower()`, modelled character-wise on ASCII. -/
def pyLower (s : String) : String :=
  String.mk (s.data.map Char.toLower)

/-- Characters matched by the id group `[a-z0-9_]` under `re.IGNORECASE`
(ASCII model). -/
def isIdChar (c : Char) : Bool :=
  (decide ('a' ≤ c) && decide (c ≤ 'z')) ||
  (decide ('A' ≤ c) && decide (c ≤ 'Z')) ||
  (decide ('0' ≤ c) && decide (c ≤ '9')) || c == '_'

/-- Consume the literal `lit` case-insensitively from the front of `cs`,
returning the remainder. -/
def eatCI : List Char → List Char → Option (List Char)
  | cs, [] => some cs
  | [], _ :: _ => none
  | c :: cs, l :: ls => if c.toLower == l.toLower then eatCI cs ls else none

/-- Match the tail of the pattern starting at the host name proper: the
literal `cam4.com/` (case-insensitively) followed by a nonempty greedy run
of id characters, which is the captured group. -/
def matchIdAt (cs : List Char) : Option String :=
  match eatCI cs "cam4.com/".data with
  | none => none
  | some rest =>
    let idChars := rest.takeWhile isIdChar
    if idChars.isEmpty then none else some (String.mk idChars)

/-- Backtracking search for the optional subdomain group: the regex piece
matching one or more characters other than a slash followed by a literal
dot, tried greedily from the longest candidate down (argument `j + 1` is
the candidate length, with the dot at index `j + 1`), and finally the
group-absent alternative (`0`).  The caller passes the length of the
longest slash-free run, so every candidate stays slash-free. -/
def tryHost (cs : List Char) : Nat → Option String
  | 0 => matchIdAt cs
  | j + 1 =>
    match
      (match cs.get? (j + 1) with
       | some c => if c == '.' then matchIdAt (cs.drop (j + 2)) else none
       | none => none) with
    | some id => some id
    | none => tryHost cs j

/-- `re.match` of the fixed pattern
`https?://(?:[^/]+\x2e)?cam4\x2ecom/(?P<id>[a-z0-9_]+)` with
`re.IGNORECASE`, returning the captured id group. -/
def matchValidUrl (url : String) : Option String :=
  match eatCI url.data "http".data with
  | none => none
  | some rest =>
    let afterScheme :=
      match rest with
      | c :: rest2 =>
        if c.toLower == 's' then
          match eatCI rest2 "://".data with
          | some r => some r
          | none => eatCI rest "://".data
        else eatCI rest "://".data
      | [] => none
    match afterScheme with
    | none => none
    | some cs => tryHost cs ((cs.takeWhile (fun c => c != '/')).length)

/-- `CAM4Standalone.BASE_API_URL`. -/
def BASE_API_URL : String := "https://www.cam4.com/rest/v1.0/profile"

/-- `CAM4Standalone.THUMBNAIL_BASE_URL`. -/
def THUMBNAIL_BASE_URL : String := "https://snapshots.xcdnpro.com/thumbnails"

/-- The private/away rejection message used by the accessibility probe. -/
def privateShowMsg : String :=
  "Stream not accessible - performer may be in a private show or away"

/-- `CAM4Standalone.extract_username`: match the URL pattern, raise
`CAM4Error(..., NOT_FOUND)` on failure, lowercase the captured group. -/
def extract_username (url : String) : Except PyErr String :=
  match matchValidUrl url with
  | none => .error (.cam4Error (some ("Invalid CAM4 URL: " ++ url)) .NOT_FOUND)
  | some id => .ok (pyLower id)

/-- `CAM4Standalone.get_profile_info` (primary file): 404 maps to `None`,
`raise_for_status` failures (status 400-599) and JSON decode errors and
transport faults are caught and map to `None`; otherwise the decoded body
is returned. -/
def get_profile_info (o : ApiOutcome) : Option PyJson :=
  match o with
  | .exc => none
  | .ok r =>
    if r.status = 404 then none
    else if 400 ≤ r.status ∧ r.status < 600 then none
    else r.json

/-- `CAM4Standalone.get_stream_info` (primary file): 204 and 404 map to
`None`, `raise_for_status` failures, decode errors and transport faults map
to `None`, and a falsy decoded body is replaced by `None`
(`return data if data else None`). -/
def get_stream_info (o : ApiOutcome) : Option PyJson :=
  match o with
  | .exc => none
  | .ok r =>
    if r.status = 204 ∨ r.status = 404 then none
    else if 400 ≤ r.status ∧ r.status < 600 then none
    else
      match r.json with
      | none => none
      | some d => if d.truthy then some d else none

/-- `CAM4Standalone.verify_stream_accessible` (primary file): body-content
private-gate check on the lowercased text first, then the 400/403 status
check, then the `#EXTM3U` presence check on the raw text; a transport fault
is caught and rendered into the error message. -/
def verify_stream_accessible (o : ProbeOutcome) : Bool × Option String :=
  match o with
  | .exc msg => (false, some ("Error accessing stream: " ++ msg))
  | .ok r =>
    let content := pyLower r.text
    if strContains content "not allowed to view" = true ∨
       strContains content "session is not allowed" = true then
      (false, some privateShowMsg)
    else if r.status = 400 ∨ r.status = 403 then
      (false, some privateShowMsg)
    else if strContains r.text "#EXTM3U" = true then
      (true, none)
    else
      (false, some "Invalid stream response")

/-- A network request issued by the resolver, recorded for the call trace:
the two API endpoints (with their full URL) and the playlist probe (whose
target is the raw `cdnURL` value). -/
inductive Req : Type where
  | profileReq (url : String)
  | streamReq (url : String)
  | probeReq (target : PyJson)

/-- `CAM4Standalone.check_performer` (primary file), paired with the list
of network requests the call issues.  The body mirrors the Python source
line by line; Python truthiness tests on optional values are expanded into
a `match` on the option followed by a `truthy` test. -/
def check_performer (url : String) (t : Transport) :
    Except PyErr PerformerInfo × List Req :=
  match extract_username url with
  | .error e => (.error e, [])
  | .ok username =>
    let thumbnail_url := THUMBNAIL_BASE_URL ++ "/" ++ username
    let tr1 : List Req := [.profileReq (BASE_API_URL ++ "/" ++ username ++ "/info")]
    match get_profile_info t.profile with
    | none =>
      (.ok ⟨username, .NOT_FOUND, none, none,
        some (username ++ ": Performer not found")⟩, tr1)
    | some profile =>
      if profile.truthy = false then
        (.ok ⟨username, .NOT_FOUND, none, none,
          some (username ++ ": Performer not found")⟩, tr1)
      else
        match pyGet profile "online" (.bool false) with
        | .error e => (.error e, tr1)
        | .ok is_online =>
          if is_online.truthy = false then
            (.ok ⟨username, .OFFLINE, none, some thumbnail_url,
              some (username ++ ": Performer is currently offline")⟩, tr1)
          else
            let tr2 := tr1 ++ [.streamReq (BASE_API_URL ++ "/" ++ username ++ "/streamInfo")]
            match get_stream_info t.stream with
            | none =>
              (.ok ⟨username, .ONLINE_NOT_STREAMING, none, some thumbnail_url,
                some (username ++ ": Performer is online but not currently streaming")⟩, tr2)
            | some stream_info =>
              if stream_info.truthy = false then
                (.ok ⟨username, .ONLINE_NOT_STREAMING, none, some thumbnail_url,
                  some (username ++ ": Performer is online but not currently streaming")⟩, tr2)
              else
                match pyGet stream_info "cdnURL" .null with
                | .error e => (.error e, tr2)
                | .ok cdn_url =>
                  if cdn_url.truthy = false then
                    (.ok ⟨username, .ONLINE_NOT_STREAMING, none, some thumbnail_url,
                      some (username ++ ": Stream info found but no playlist URL available")⟩, tr2)
                  else
                    let tr3 := tr2 ++ [.probeReq cdn_url]
                    let va := verify_stream_accessible t.probe
                    if va.fst = false then
                      (.ok ⟨username, .PRIVATE_OR_AWAY, none, some thumbnail_url,
                        some (username ++ ": " ++ pyStrOfOpt va.snd)⟩, tr3)
                    else
                      (.ok ⟨username, .STREAMING, some cdn_url, some thumbnail_url,
                        none⟩, tr3)

/-- `get_profile_info` from `src/standalone/cam4_standalone.py`: same steps,
but the catch-all clause absorbs every exception (transport fault,
`raise_for_status`, JSON decoding) into `None`. -/
def get_profile_info2 (o : ApiOutcome) : Option PyJson :=
  match o with
  | .exc => none
  | .ok r =>
    if r.status = 404 then none
    else if 400 ≤ r.status ∧ r.status < 600 then none
    else r.json

/-- `get_stream_info` from `src/standalone/cam4_standalone.py`:
`if response.status_code in (204, 404)` maps to `None`, failures are
absorbed by the catch-all, and `response.json() or None` replaces a falsy
decoded body by `None`. -/
def get_stream_info2 (o : ApiOutcome) : Option PyJson :=
  match o with
  | .exc => none
  | .ok r =>
    if r.status = 204 ∨ r.status = 404 then none
    else if 400 ≤ r.status ∧ r.status < 600 then none
    else
      match r.json with
      | none => none
      | some d => if d.truthy then some d else none

/-- `verify_stream_accessible` from `src/standalone/cam4_standalone.py`:
identical classification rule; the catch clause is `except Exception`. -/
def verify_stream_accessible2 (o : ProbeOutcome) : Bool × Option String :=
  match o with
  | .exc msg => (false, some ("Error accessing stream: " ++ msg))
  | .ok r =>
    let content := pyLower r.text
    if strContains content "not allowed to view" = true ∨
       strContains content "session is not allowed" = true then
      (false, some privateShowMsg)
    else if r.status = 400 ∨ r.status = 403 then
      (false, some privateShowMsg)
    else if strContains r.text "#EXTM3U" = true then
      (true, none)
    else
      (false, some "Invalid stream response")

/-- `check_performer` from `src/standalone/cam4_standalone.py`.  The stream
step is merged there into a single short-circuiting test
`if not stream_info or not stream_info.get(...)`, followed by the subscript
`stream_info[...]`, and the missing-playlist case shares the
online-but-not-streaming message. -/
def checkPerformer2 (url : String) (t : Transport) : Except PyErr PerformerInfo :=
  match extract_username url with
  | .error e => .error e
  | .ok username =>
    let thumbnail_url := THUMBNAIL_BASE_URL ++ "/" ++ username
    match get_profile_info2 t.profile with
    | none =>
      .ok ⟨username, .NOT_FOUND, none, none,
        some (username ++ ": Performer not found")⟩
    | some profile =>
      if profile.truthy = false then
        .ok ⟨username, .NOT_FOUND, none, none,
          some (username ++ ": Performer not found")⟩
      else
        match pyGet profile "online" (.bool false) with
        | .error e => .error e
        | .ok is_online =>
          if is_online.truthy = false then
            .ok ⟨username, .OFFLINE, none, some thumbnail_url,
              some (username ++ ": Performer is currently offline")⟩
          else
            match get_stream_info2 t.stream with
            | none =>
              .ok ⟨username, .ONLINE_NOT_STREAMING, none, some thumbnail_url,
                some (username ++ ": Performer is online but not currently streaming")⟩
            | some stream_info =>
              if stream_info.truthy = false then
                .ok ⟨username, .ONLINE_NOT_STREAMING, none, some thumbnail_url,
                  some (username ++ ": Performer is online but not currently streaming")⟩
              else
                match pyGet stream_info "cdnURL" .null with
                | .error e => .error e
                | .ok guard_cdn =>
                  if guard_cdn.truthy = false then
                    .ok ⟨username, .ONLINE_NOT_STREAMING, none, some thumbnail_url,
                      some (username ++ ": Performer is online but not currently streaming")⟩
                  else
                    match pySubscript stream_info "cdnURL" with
                    | .error e => .error e
                    | .ok cdn_url =>
                      let va := verify_stream_accessible2 t.probe
                      if va.fst = false then
                        .ok ⟨username, .PRIVATE_OR_AWAY, none, some thumbnail_url,
                          some (username ++ ": " ++ pyStrOfOpt va.snd)⟩
                      else
                        .ok ⟨username, .STREAMING, some cdn_url, some thumbnail_url,
                          none⟩

/-- The spawned external encoding process, identified by its argument
vector.  A value of this type is constructed exactly at the point where the
Python code reaches `subprocess.Popen(cmd, ...)`; an `Except.error` result
of `record_stream` therefore means the spawn line was never reached. -/
structure FfmpegProcess where
  cmd : List PyJson

/-- `CAM4Standalone.record_stream` (primary file): resolve the performer,
raise `CAM4Error(info.error_message, info.status)` unless the status is
`STREAMING`, otherwise build the ffmpeg argument vector and spawn.
`now_timestamp` stands for the formatted `datetime.now()` value. -/
def record_stream (url : String) (t : Transport) (output_path : Option String)
    (now_timestamp : String) (ffmpeg_args : List String) :
    Except PyErr FfmpegProcess :=
  match (check_performer url t).fst with
  | .error e => .error e
  | .ok info =>
    if info.status ≠ PerformerStatus.STREAMING then
      .error (.cam4Error info.error_message info.status)
    else
      let output :=
        match output_path with
        | none => info.username ++ "_" ++ now_timestamp ++ ".ts"
        | some s => if s = "" then info.username ++ "_" ++ now_timestamp ++ ".ts" else s
      .ok ⟨[.str "ffmpeg", .str "-i",
            (match info.stream_url with | some u => u | none => .null),
            .str "-c:v", .str "copy", .str "-c:a", .str "copy", .str "-y"] ++
           ffmpeg_args.map PyJson.str ++ [.str output]⟩

/-- A transport outcome whose decoded body, when present, is a JSON object:
the shapes under which the resolver calls `.get` only on dicts.  Bodies
that fail to decode (`json = none`) and transport faults are included. -/
def apiSafe (o : ApiOutcome) : Bool :=
  match o with
  | .exc => true
  | .ok r =>
    match r.json with
    | none => true
    | some (.dict _) => true
    | some _ => false

/-- Projection of a resolution outcome to the fields the two standalone
implementations are expected to agree on: status, stream URL and thumbnail
URL (their human-readable messages may differ). -/
def exView (e : Except PyErr PerformerInfo) :
    Except PyErr (PerformerStatus × Option PyJson × Option String) :=
  e.map (fun i => (i.status, i.stream_url, i.thumbnail_url))

/-- The two copies of the profile lookup absorb the same failure set into
`None` and agree on every transport outcome. -/
theorem gpi2_eq_gpi (o : ApiOutcome) : get_profile_info2 o = get_profile_info o := by
  cases o <;> rfl

/-- The two copies of the stream-descriptor lookup agree on every transport
outcome. -/
theorem gsi2_eq_gsi (o : ApiOutcome) : get_stream_info2 o = get_stream_info o := by
  cases o <;> rfl

/-- The two copies of the accessibility probe agree on every transport
outcome. -/
theorem verify2_eq_verify (o : ProbeOutcome) :
    verify_stream_accessible2 o = verify_stream_accessible o := by
  cases o <;> rfl

/-- A descriptor returned by `get_stream_info` is always truthy, because a
falsy decoded body is replaced by `None`. -/
theorem gsi_truthy_of_some {o : ApiOutcome} {d : PyJson}
    (h : get_stream_info o = some d) : d.truthy = true := by
  unfold get_stream_info at h
  cases o with
  | exc => exact absurd h (by simp)
  | ok r =>
    by_cases h1 : r.status = 204 ∨ r.status = 404
    · simp [h1] at h
    · by_cases h2 : 400 ≤ r.status ∧ r.status < 600
      · simp [h1, h2] at h
      · simp only [if_neg h1, if_neg h2] at h
        cases hj : r.json with
        | none => rw [hj] at h; exact absurd h (by simp)
        | some x =>
          rw [hj] at h
          by_cases ht : x.truthy = true
          · simp [ht] at h; rw [← h]; exact ht
          · simp [ht] at h

/-- If `v.get(key)` with a falsy default returns a truthy value, then the
key is present and `v[key]` returns the same value. -/
theorem pySubscript_eq_of_pyGet {v c : PyJson} {key : String}
    (h : pyGet v key .null = .ok c) (ht : c.truthy = true) :
    pySubscript v key = .ok c := by
  cases v with
  | dict fs =>
    simp only [pyGet, Except.ok.injEq] at h
    cases hl : fs.lookup key with
    | none =>
      rw [hl] at h
      simp only [Option.getD_none] at h
      rw [← h] at ht
      exact absurd ht (by simp [PyJson.truthy])
    | some x =>
      rw [hl] at h
      simp only [Option.getD_some] at h
      simp [pySubscript, hl, h]
  | null => exact absurd h (by simp [pyGet])
  | bool b => exact absurd h (by simp [pyGet])
  | num n => exact absurd h (by simp [pyGet])
  | str s => exact absurd h (by simp [pyGet])
  | arr xs => exact absurd h (by simp [pyGet])

/-- Successful profile lookup: with a non-404, non-error status the decoded
body is returned as is. -/
theorem gpi_ok_eq {r : ApiResponse} (h404 : r.status ≠ 404)
    (hlt : r.status < 400) : get_profile_info (.ok r) = r.json := by
  show (if r.status = 404 then none
        else if 400 ≤ r.status ∧ r.status < 600 then none else r.json) = r.json
  rw [if_neg h404, if_neg (by omega)]

/-- Profile lookup absorbs absence signals, undecodable bodies and
transport faults into `None`. -/
theorem gpi_none_of_absent {o : ApiOutcome}
    (h : o = .exc ∨ ∃ r, o = .ok r ∧ (r.status = 404 ∨ r.json = none)) :
    get_profile_info o = none := by
  rcases h with h | ⟨r, rfl, h⟩
  · rw [h]; rfl
  · show (if r.status = 404 then none
          else if 400 ≤ r.status ∧ r.status < 600 then none else r.json) = none
    rcases h with h | h
    · rw [if_pos h]
    · by_cases h4 : r.status = 404
      · rw [if_pos h4]
      · rw [if_neg h4]
        by_cases h5 : 400 ≤ r.status ∧ r.status < 600
        · rw [if_pos h5]
        · rw [if_neg h5]; exact h

/-- Context lemma: once identifier extraction succeeds, the profile is a
truthy record with a truthy online flag, and the descriptor carries a
truthy playback URL, the resolution outcome is decided entirely by the
accessibility probe: rejection gives `PRIVATE_OR_AWAY`, acceptance gives
`STREAMING` carrying the unmodified playback URL. -/
theorem reach_probe_eq (url : String) (t : Transport) (uname : String)
    (p ob d c : PyJson)
    (hu : extract_username url = .ok uname)
    (hgpi : get_profile_info t.profile = some p)
    (hpt : p.truthy = true)
    (hget : pyGet p "online" (.bool false) = .ok ob)
    (hot : ob.truthy = true)
    (hgsi : get_stream_info t.stream = some d)
    (hcg : pyGet d "cdnURL" .null = .ok c)
    (hct : c.truthy = true) :
    (check_performer url t).fst =
      (if (verify_stream_accessible t.probe).fst = false then
        .ok ⟨uname, .PRIVATE_OR_AWAY, none, some (THUMBNAIL_BASE_URL ++ "/" ++ uname),
          some (uname ++ ": " ++ pyStrOfOpt (verify_stream_accessible t.probe).snd)⟩
      else
        .ok ⟨uname, .STREAMING, some c, some (THUMBNAIL_BASE_URL ++ "/" ++ uname),
          none⟩) := by
  have hdt : d.truthy = true := gsi_truthy_of_some hgsi
  simp only [check_performer, hu, hgpi, hpt, hget, hot, hgsi, hdt, hcg, hct,
    Bool.true_eq_false, if_false, reduceCtorEq, ite_false]
  by_cases hv : (verify_stream_accessible t.probe).fst = false <;> simp [hv]

/-- A concrete transport used by witnesses: profile online, descriptor with
a playback URL, probe body carrying both the playlist header and a
private-gate phrase under a benign status code. -/
def privTransport : Transport :=
  ⟨.ok ⟨200, some (.dict [("online", .bool true)])⟩,
   .ok ⟨200, some (.dict [("cdnURL", .str "https://cdn/x.m3u8")])⟩,
   .ok ⟨200, "#EXTM3U\nSession is not allowed to view this stream"⟩⟩

/-- C1: in the accessibility probe, a response body containing a
private-gate marker phrase (matched case-insensitively) is rejected with
the private/away message and the resolver classifies `PRIVATE_OR_AWAY`,
regardless of the status code and even if the body also contains the
playlist header marker: the body check is evaluated first. -/
theorem cam4_probe_private_gate_priority (url : String) (t : Transport)
    (uname : String) (p ob d c : PyJson) (pr : ProbeResponse)
    (hu : extract_username url = .ok uname)
    (hgpi : get_profile_info t.profile = some p)
    (hpt : p.truthy = true)
    (hget : pyGet p "online" (.bool false) = .ok ob)
    (hot : ob.truthy = true)
    (hgsi : get_stream_info t.stream = some d)
    (hcg : pyGet d "cdnURL" .null = .ok c)
    (hct : c.truthy = true)
    (hpr : t.probe = .ok pr)
    (hpriv : strContains (pyLower pr.text) "not allowed to view" = true ∨
             strContains (pyLower pr.text) "session is not allowed" = true) :
    verify_stream_accessible t.probe = (false, some privateShowMsg) ∧
    (check_performer url t).fst =
      .ok ⟨uname, .PRIVATE_OR_AWAY, none,
        some (THUMBNAIL_BASE_URL ++ "/" ++ uname),
        some (uname ++ ": " ++ privateShowMsg)⟩ := by
  have hva : verify_stream_accessible t.probe = (false, some privateShowMsg) := by
    rw [hpr]
    show (if strContains (pyLower pr.text) "not allowed to view" = true ∨
            strContains (pyLower pr.text) "session is not allowed" = true then
            ((false : Bool), some privateShowMsg)
          else if pr.status = 400 ∨ pr.status = 403 then
            ((false : Bool), some privateShowMsg)
          else if strContains pr.text "#EXTM3U" = true then ((true : Bool), none)
          else ((false : Bool), some "Invalid stream response")) =
        (false, some privateShowMsg)
    rw [if_pos hpriv]
  refine ⟨hva, ?_⟩
  rw [reach_probe_eq url t uname p ob d c hu hgpi hpt hget hot hgsi hcg hct, hva]
  simp [pyStrOfOpt]

/-- Witness for C1 at a concrete input: status 200 and a body that carries
both `#EXTM3U` and a private-gate phrase still classifies
`PRIVATE_OR_AWAY`. -/
theorem cam4_probe_private_gate_priority_witness :
    verify_stream_accessible privTransport.probe = (false, some privateShowMsg) ∧
    (check_performer "https://www.cam4.com/foo" privTransport).fst =
      .ok ⟨"foo", .PRIVATE_OR_AWAY, none,
        some (THUMBNAIL_BASE_URL ++ "/" ++ "foo"),
        some ("foo" ++ ": " ++ privateShowMsg)⟩ :=
  cam4_probe_private_gate_priority "https://www.cam4.com/foo" privTransport
    "foo" (.dict [("online", .bool true)]) (.bool true)
    (.dict [("cdnURL", .str "https://cdn/x.m3u8")]) (.str "https://cdn/x.m3u8")
    ⟨200, "#EXTM3U\nSession is not allowed to view this stream"⟩
    rfl rfl rfl rfl rfl rfl rfl rfl rfl (Or.inr rfl)

/-- A concrete transport refuting C2 as stated: the probe response has a
body containing `#EXTM3U` and no private-gate phrase, but status 403. -/
def forbiddenProbeTransport : Transport :=
  ⟨.ok ⟨200, some (.dict [("online", .bool true)])⟩,
   .ok ⟨200, some (.dict [("cdnURL", .str "https://cdn/x.m3u8")])⟩,
   .ok ⟨403, "#EXTM3U\nsegment.ts"⟩⟩

/-- C2 counterexample: a probed body that contains `#EXTM3U` and no
private-gate phrase, served with status 403, is classified
`PRIVATE_OR_AWAY`, not `STREAMING`: the status-code check precedes the
playlist-header check. -/
theorem cam4_extm3u_forbidden_status_counterexample :
    strContains "#EXTM3U\nsegment.ts" "#EXTM3U" = true ∧
    strContains (pyLower "#EXTM3U\nsegment.ts") "not allowed to view" = false ∧
    strContains (pyLower "#EXTM3U\nsegment.ts") "session is not allowed" = false ∧
    (check_performer "https://www.cam4.com/foo" forbiddenProbeTransport).fst =
      .ok ⟨"foo", .PRIVATE_OR_AWAY, none,
        some (THUMBNAIL_BASE_URL ++ "/" ++ "foo"),
        some ("foo" ++ ": " ++ privateShowMsg)⟩ ∧
    PerformerStatus.PRIVATE_OR_AWAY ≠ PerformerStatus.STREAMING :=
  ⟨rfl, rfl, rfl, rfl, by decide⟩

/-- C2 as amended: if additionally the probed status code is not 400 or
403, a body containing `#EXTM3U` and no private-gate phrase is accepted and
the resolver classifies `STREAMING` with the descriptor playback URL
carried over unmodified. -/
theorem cam4_extm3u_accept_streaming (url : String) (t : Transport)
    (uname : String) (p ob d c : PyJson) (pr : ProbeResponse)
    (hu : extract_username url = .ok uname)
    (hgpi : get_profile_info t.profile = some p)
    (hpt : p.truthy = true)
    (hget : pyGet p "online" (.bool false) = .ok ob)
    (hot : ob.truthy = true)
    (hgsi : get_stream_info t.stream = some d)
    (hcg : pyGet d "cdnURL" .null = .ok c)
    (hct : c.truthy = true)
    (hpr : t.probe = .ok pr)
    (hnp1 : strContains (pyLower pr.text) "not allowed to view" = false)
    (hnp2 : strContains (pyLower pr.text) "session is not allowed" = false)
    (hs400 : pr.status ≠ 400) (hs403 : pr.status ≠ 403)
    (hm3u : strContains pr.text "#EXTM3U" = true) :
    (check_performer url t).fst =
      .ok ⟨uname, .STREAMING, some c,
        some (THUMBNAIL_BASE_URL ++ "/" ++ uname), none⟩ := by
  have hva : verify_stream_accessible t.probe = (true, none) := by
    rw [hpr]
    show (if strContains (pyLower pr.text) "not allowed to view" = true ∨
            strContains (pyLower pr.text) "session is not allowed" = true then
            ((false : Bool), some privateShowMsg)
          else if pr.status = 400 ∨ pr.status = 403 then
            ((false : Bool), some privateShowMsg)
          else if strContains pr.text "#EXTM3U" = true then ((true : Bool), none)
          else ((false : Bool), some "Invalid stream response")) =
        (true, none)
    rw [if_neg (by simp [hnp1, hnp2]), if_neg (by simp [hs400, hs403]),
      if_pos hm3u]
  rw [reach_probe_eq url t uname p ob d c hu hgpi hpt hget hot hgsi hcg hct, hva]
  simp

/-- The scenario from the specification: profile online, descriptor
playback URL `https://cdn/x.m3u8`, probe body starting with `#EXTM3U` under
status 200. -/
def streamingTransport : Transport :=
  ⟨.ok ⟨200, some (.dict [("online", .bool true)])⟩,
   .ok ⟨200, some (.dict [("cdnURL", .str "https://cdn/x.m3u8")])⟩,
   .ok ⟨200, "#EXTM3U\n#EXT-X-VERSION:3\nsegment.ts"⟩⟩

/-- Witness for the amended C2 on the specification scenario. -/
theorem cam4_extm3u_accept_streaming_witness :
    (check_performer "https://www.cam4.com/foo_1" streamingTransport).fst =
      .ok ⟨"foo_1", .STREAMING, some (.str "https://cdn/x.m3u8"),
        some (THUMBNAIL_BASE_URL ++ "/" ++ "foo_1"), none⟩ :=
  cam4_extm3u_accept_streaming "https://www.cam4.com/foo_1" streamingTransport
    "foo_1" (.dict [("online", .bool true)]) (.bool true)
    (.dict [("cdnURL", .str "https://cdn/x.m3u8")]) (.str "https://cdn/x.m3u8")
    ⟨200, "#EXTM3U\n#EXT-X-VERSION:3\nsegment.ts"⟩
    rfl rfl rfl rfl rfl rfl rfl rfl rfl rfl rfl (by decide) (by decide) rfl

/-- A transport whose every request faults; no field of it is ever
inspected by a resolution call that fails at identifier extraction. -/
def faultyTransport : Transport := ⟨.exc, .exc, .exc "connection reset"⟩

/-- C4: an input URL that does not match the identifier pattern makes the
resolver raise `CAM4Error` carrying the `NOT_FOUND` classification and the
invalid-URL message, with an empty request trace: no network call is
issued. -/
theorem cam4_invalid_url_no_network (url : String) (t : Transport)
    (h : matchValidUrl url = none) :
    check_performer url t =
      (.error (.cam4Error (some ("Invalid CAM4 URL: " ++ url)) .NOT_FOUND), []) := by
  simp only [check_performer, extract_username, h]

/-- Witness for C4 at a concrete non-matching URL. -/
theorem cam4_invalid_url_no_network_witness :
    matchValidUrl "https://example.com/foo" = none ∧
    check_performer "https://example.com/foo" faultyTransport =
      (.error (.cam4Error (some ("Invalid CAM4 URL: " ++ "https://example.com/foo"))
        .NOT_FOUND), []) :=
  ⟨rfl, cam4_invalid_url_no_network "https://example.com/foo" faultyTransport rfl⟩

/-- C7: when the profile lookup signals absence (status 404), returns an
undecodable or empty body, or faults at the transport level, the resolver
classifies `NOT_FOUND` and the result carries no playback URL. -/
theorem cam4_profile_absent_not_found (url : String) (t : Transport)
    (uname : String)
    (hu : extract_username url = .ok uname)
    (h : t.profile = .exc ∨
         ∃ r, t.profile = .ok r ∧ (r.status = 404 ∨ r.json = none)) :
    (check_performer url t).fst =
      .ok ⟨uname, .NOT_FOUND, none, none,
        some (uname ++ ": Performer not found")⟩ := by
  have hg : get_profile_info t.profile = none := gpi_none_of_absent h
  simp only [check_performer, hu, hg]

/-- Witness for C7: a 404 profile response. -/
theorem cam4_profile_absent_not_found_witness :
    (check_performer "https://www.cam4.com/foo"
      ⟨.ok ⟨404, none⟩, .exc, .exc "x"⟩).fst =
      .ok ⟨"foo", .NOT_FOUND, none, none,
        some ("foo" ++ ": Performer not found")⟩ :=
  cam4_profile_absent_not_found "https://www.cam4.com/foo"
    ⟨.ok ⟨404, none⟩, .exc, .exc "x"⟩ "foo" rfl
    (Or.inr ⟨⟨404, none⟩, rfl, Or.inl rfl⟩)

/-- A nonempty association list is truthy as a Python dict. -/
theorem dict_truthy_of_ne_nil {fs : List (String × PyJson)} (h : fs ≠ []) :
    PyJson.truthy (.dict fs) = true := by
  cases fs with
  | nil => exact absurd rfl h
  | cons a as => rfl

/-- C8: a successful profile lookup (a truthy record) whose online flag is
false or absent classifies `OFFLINE`, and the result carries the
deterministic thumbnail template for the identifier. -/
theorem cam4_offline_with_thumbnail (url : String) (t : Transport)
    (uname : String) (r : ApiResponse) (fs : List (String × PyJson))
    (hu : extract_username url = .ok uname)
    (hp : t.profile = .ok r) (h404 : r.status ≠ 404) (hcode : r.status < 400)
    (hjson : r.json = some (.dict fs)) (hne : fs ≠ [])
    (hon : fs.lookup "online" = none ∨ fs.lookup "online" = some (.bool false)) :
    (check_performer url t).fst =
      .ok ⟨uname, .OFFLINE, none, some (THUMBNAIL_BASE_URL ++ "/" ++ uname),
        some (uname ++ ": Performer is currently offline")⟩ := by
  have hg : get_profile_info t.profile = some (.dict fs) := by
    rw [hp, gpi_ok_eq h404 hcode, hjson]
  have ht : PyJson.truthy (.dict fs) = true := dict_truthy_of_ne_nil hne
  have hgo : pyGet (.dict fs) "online" (.bool false) = .ok (.bool false) := by
    rcases hon with h | h <;> simp [pyGet, h]
  simp only [check_performer, hu, hg, ht, hgo, Bool.true_eq_false, if_false,
    reduceCtorEq, ite_false]
  simp [PyJson.truthy]

/-- Witness for C8: profile record `online = false`. -/
theorem cam4_offline_with_thumbnail_witness :
    (check_performer "https://www.cam4.com/foo"
      ⟨.ok ⟨200, some (.dict [("online", .bool false)])⟩, .exc, .exc "x"⟩).fst =
      .ok ⟨"foo", .OFFLINE, none, some (THUMBNAIL_BASE_URL ++ "/" ++ "foo"),
        some ("foo" ++ ": Performer is currently offline")⟩ :=
  cam4_offline_with_thumbnail "https://www.cam4.com/foo"
    ⟨.ok ⟨200, some (.dict [("online", .bool false)])⟩, .exc, .exc "x"⟩ "foo"
    ⟨200, some (.dict [("online", .bool false)])⟩ [("online", .bool false)]
    rfl rfl (by decide) (by decide) rfl (List.cons_ne_nil _ _) (Or.inr rfl)

/-- The stream-descriptor lookup, under any of the no-playback signals of
C9, either yields nothing or yields a record whose `cdnURL` access (with
the `None` default) produces a falsy value. -/
theorem gsi_options {o : ApiOutcome}
    (h : o = .exc ∨ ∃ s, o = .ok s ∧
      (s.status = 204 ∨ s.status = 404 ∨ s.json = none ∨
       ∃ ds, s.json = some (.dict ds) ∧
         (ds.lookup "cdnURL" = none ∨ ds.lookup "cdnURL" = some (.str "")))) :
    get_stream_info o = none ∨
    ∃ ds, get_stream_info o = some (.dict ds) ∧
      ((ds.lookup "cdnURL").getD PyJson.null).truthy = false := by
  rcases h with rfl | ⟨s, rfl, h⟩
  · left; rfl
  · have hbody : get_stream_info (.ok s) =
        (if s.status = 204 ∨ s.status = 404 then none
         else if 400 ≤ s.status ∧ s.status < 600 then none
         else match s.json with
           | none => none
           | some d => if d.truthy then some d else none) := rfl
    by_cases h1 : s.status = 204 ∨ s.status = 404
    · left; rw [hbody, if_pos h1]
    · by_cases h2 : 400 ≤ s.status ∧ s.status < 600
      · left; rw [hbody, if_pos h2, if_neg h1]
      · rcases h with h | h | h | ⟨ds, hds, hcd⟩
        · exact absurd (Or.inl h) h1
        · exact absurd (Or.inr h) h1
        · left; rw [hbody, if_neg h1, if_neg h2, h]
        · by_cases ht : PyJson.truthy (.dict ds) = true
          · right
            refine ⟨ds, ?_, ?_⟩
            · rw [hbody, if_neg h1, if_neg h2, hds]
              simp [ht]
            · rcases hcd with hcd | hcd <;> simp [hcd, PyJson.truthy]
          · left
            rw [hbody, if_neg h1, if_neg h2, hds]
            simp [ht]

/-- C9: with the profile online, any of the no-playback descriptor signals
(no-content status, absence status, undecodable body, record without a
playback URL or with an empty one) classifies `ONLINE_NOT_STREAMING` with
no playback URL in the result. -/
theorem cam4_online_no_playback_not_streaming (url : String) (t : Transport)
    (uname : String) (r : ApiResponse) (fs : List (String × PyJson))
    (hu : extract_username url = .ok uname)
    (hp : t.profile = .ok r) (h404 : r.status ≠ 404) (hcode : r.status < 400)
    (hjson : r.json = some (.dict fs))
    (hon : fs.lookup "online" = some (.bool true))
    (hs : t.stream = .exc ∨ ∃ s, t.stream = .ok s ∧
      (s.status = 204 ∨ s.status = 404 ∨ s.json = none ∨
       ∃ ds, s.json = some (.dict ds) ∧
         (ds.lookup "cdnURL" = none ∨ ds.lookup "cdnURL" = some (.str "")))) :
    ∃ m, (check_performer url t).fst =
      .ok ⟨uname, .ONLINE_NOT_STREAMING, none,
        some (THUMBNAIL_BASE_URL ++ "/" ++ uname), some m⟩ := by
  have hg : get_profile_info t.profile = some (.dict fs) := by
    rw [hp, gpi_ok_eq h404 hcode, hjson]
  have hne : fs ≠ [] := by
    intro hnil
    rw [hnil] at hon
    exact absurd hon (by simp)
  have ht : PyJson.truthy (.dict fs) = true := dict_truthy_of_ne_nil hne
  have hgo : pyGet (.dict fs) "online" (.bool false) = .ok (.bool true) := by
    simp [pyGet, hon]
  rcases gsi_options hs with hgs | ⟨ds, hgs, hcd⟩
  · refine ⟨uname ++ ": Performer is online but not currently streaming", ?_⟩
    simp only [check_performer, hu, hg, ht, hgo, hgs, Bool.true_eq_false,
      if_false, reduceCtorEq, ite_false]
    simp [PyJson.truthy]
  · have hdt : PyJson.truthy (.dict ds) = true := gsi_truthy_of_some hgs
    have hcg : pyGet (.dict ds) "cdnURL" .null =
        .ok ((ds.lookup "cdnURL").getD PyJson.null) := rfl
    refine ⟨uname ++ ": Stream info found but no playlist URL available", ?_⟩
    simp only [check_performer, hu, hg, ht, hgo, hgs, hdt, hcg, hcd,
      Bool.true_eq_false, if_false, reduceCtorEq, ite_false]
    simp [PyJson.truthy, hcd]

/-- Witness for C9: profile online, descriptor lookup answers 204. -/
theorem cam4_online_no_playback_not_streaming_witness :
    ∃ m, (check_performer "https://www.cam4.com/foo"
      ⟨.ok ⟨200, some (.dict [("online", .bool true)])⟩, .ok ⟨204, none⟩,
        .exc "x"⟩).fst =
      .ok ⟨"foo", .ONLINE_NOT_STREAMING, none,
        some (THUMBNAIL_BASE_URL ++ "/" ++ "foo"), some m⟩ :=
  cam4_online_no_playback_not_streaming "https://www.cam4.com/foo"
    ⟨.ok ⟨200, some (.dict [("online", .bool true)])⟩, .ok ⟨204, none⟩,
      .exc "x"⟩ "foo"
    ⟨200, some (.dict [("online", .bool true)])⟩ [("online", .bool true)]
    rfl rfl (by decide) (by decide) rfl rfl
    (Or.inr ⟨⟨204, none⟩, rfl, Or.inl rfl⟩)

/-- C5 counterexample: with a successfully extracted identifier whose
profile lookup finds no performer, the result is `NOT_FOUND` and its
`thumbnail_url` field is `none`, not the deterministic template. -/
theorem cam4_not_found_thumbnail_absent_counterexample :
    extract_username "https://www.cam4.com/foo" = .ok "foo" ∧
    (check_performer "https://www.cam4.com/foo"
      ⟨.ok ⟨404, none⟩, .exc, .exc "x"⟩).fst =
      .ok ⟨"foo", .NOT_FOUND, none, none, some ("foo: Performer not found")⟩ ∧
    (PerformerInfo.thumbnail_url
      ⟨"foo", .NOT_FOUND, none, none, some ("foo: Performer not found")⟩) = none :=
  ⟨rfl, rfl, rfl⟩

/-- C5 as amended: whenever resolution returns a result, its
`thumbnail_url` equals the deterministic template keyed by the identifier
in the four states other than `NOT_FOUND`, and is absent in every
`NOT_FOUND` result (both the invalid-URL and the profile-absent paths). -/
theorem cam4_thumbnail_present_except_not_found (url : String) (t : Transport)
    (info : PerformerInfo)
    (h : (check_performer url t).fst = .ok info) :
    info.thumbnail_url =
      (if info.status = .NOT_FOUND then none
       else some (THUMBNAIL_BASE_URL ++ "/" ++ info.username)) := by
  simp only [check_performer] at h
  repeat' split at h
  all_goals simp at h
  all_goals (subst h; simp)

/-- Witness for the amended C5 on a concrete `OFFLINE` resolution. -/
theorem cam4_thumbnail_present_except_not_found_witness :
    (PerformerInfo.thumbnail_url
      ⟨"foo", .OFFLINE, none, some (THUMBNAIL_BASE_URL ++ "/" ++ "foo"),
        some ("foo" ++ ": Performer is currently offline")⟩) =
      (if (PerformerInfo.status
            ⟨"foo", .OFFLINE, none, some (THUMBNAIL_BASE_URL ++ "/" ++ "foo"),
              some ("foo" ++ ": Performer is currently offline")⟩) = .NOT_FOUND
       then none
       else some (THUMBNAIL_BASE_URL ++ "/" ++ (PerformerInfo.username
            ⟨"foo", .OFFLINE, none, some (THUMBNAIL_BASE_URL ++ "/" ++ "foo"),
              some ("foo" ++ ": Performer is currently offline")⟩))) :=
  cam4_thumbnail_present_except_not_found "https://www.cam4.com/foo"
    ⟨.ok ⟨200, some (.dict [("online", .bool false)])⟩, .exc, .exc "x"⟩
    ⟨"foo", .OFFLINE, none, some (THUMBNAIL_BASE_URL ++ "/" ++ "foo"),
      some ("foo" ++ ": Performer is currently offline")⟩ rfl

/-- Under a safe transport outcome, whatever the profile lookup hands back
is a JSON object. -/
theorem gpi_dict_of_safe {o : ApiOutcome} {j : PyJson} (hs : apiSafe o = true)
    (h : get_profile_info o = some j) : ∃ fs, j = .dict fs := by
  cases o with
  | exc => exact absurd h (by simp [get_profile_info])
  | ok r =>
    have hb : get_profile_info (.ok r) =
        (if r.status = 404 then none
         else if 400 ≤ r.status ∧ r.status < 600 then none else r.json) := rfl
    rw [hb] at h
    by_cases h1 : r.status = 404
    · rw [if_pos h1] at h; exact absurd h (by simp)
    · rw [if_neg h1] at h
      by_cases h2 : 400 ≤ r.status ∧ r.status < 600
      · rw [if_pos h2] at h; exact absurd h (by simp)
      · rw [if_neg h2] at h
        have hsafe : apiSafe (.ok r) = true := hs
        rw [show apiSafe (.ok r) =
            (match r.json with
             | none => true
             | some (.dict _) => true
             | some _ => false) from rfl] at hsafe
        rw [h] at hsafe
        cases j with
        | dict fs => exact ⟨fs, rfl⟩
        | null => simp at hsafe
        | bool b => simp at hsafe
        | num n => simp at hsafe
        | str s => simp at hsafe
        | arr xs => simp at hsafe

/-- Under a safe transport outcome, whatever the stream-descriptor lookup
hands back is a JSON object. -/
theorem gsi_dict_of_safe {o : ApiOutcome} {d : PyJson} (hs : apiSafe o = true)
    (h : get_stream_info o = some d) : ∃ fs, d = .dict fs := by
  cases o with
  | exc => exact absurd h (by simp [get_stream_info])
  | ok r =>
    have hb : get_stream_info (.ok r) =
        (if r.status = 204 ∨ r.status = 404 then none
         else if 400 ≤ r.status ∧ r.status < 600 then none
         else match r.json with
           | none => none
           | some x => if x.truthy then some x else none) := rfl
    rw [hb] at h
    by_cases h1 : r.status = 204 ∨ r.status = 404
    · rw [if_pos h1] at h; exact absurd h (by simp)
    · rw [if_neg h1] at h
      by_cases h2 : 400 ≤ r.status ∧ r.status < 600
      · rw [if_pos h2] at h; exact absurd h (by simp)
      · rw [if_neg h2] at h
        have hsafe : apiSafe (.ok r) = true := hs
        rw [show apiSafe (.ok r) =
            (match r.json with
             | none => true
             | some (.dict _) => true
             | some _ => false) from rfl] at hsafe
        cases hj : r.json with
        | none => rw [hj] at h; exact absurd h (by simp)
        | some x =>
          rw [hj] at h hsafe
          have hx : x = d := by
            by_cases ht : x.truthy = true <;> simp [ht] at h
            · exact h
          subst hx
          cases x with
          | dict fs => exact ⟨fs, rfl⟩
          | null => simp at hsafe
          | bool b => simp at hsafe
          | num n => simp at hsafe
          | str s => simp at hsafe
          | arr xs => simp at hsafe

/-- C3: when identifier extraction succeeds and the transport outcomes are
limited to responses with object-or-undecodable bodies and transport
faults (timeouts, connection errors), resolution always returns a result
classified with exactly one of the five states and never propagates an
exception. -/
theorem cam4_resolve_total_five_states (url : String) (t : Transport)
    (uname : String)
    (hu : extract_username url = .ok uname)
    (hp : apiSafe t.profile = true) (hs : apiSafe t.stream = true) :
    ∃ info, (check_performer url t).fst = .ok info ∧
      (info.status = .NOT_FOUND ∨ info.status = .OFFLINE ∨
       info.status = .ONLINE_NOT_STREAMING ∨ info.status = .PRIVATE_OR_AWAY ∨
       info.status = .STREAMING) := by
  cases hg : get_profile_info t.profile with
  | none =>
    refine ⟨⟨uname, .NOT_FOUND, none, none,
      some (uname ++ ": Performer not found")⟩, ?_, Or.inl rfl⟩
    simp only [check_performer, hu, hg]
  | some p =>
    obtain ⟨pfs, rfl⟩ := gpi_dict_of_safe hp hg
    cases hpt : PyJson.truthy (.dict pfs) with
    | false =>
      refine ⟨⟨uname, .NOT_FOUND, none, none,
        some (uname ++ ": Performer not found")⟩, ?_, Or.inl rfl⟩
      simp [check_performer, hu, hg, hpt]
    | true =>
      have hgo : pyGet (.dict pfs) "online" (.bool false) =
          .ok ((pfs.lookup "online").getD (.bool false)) := rfl
      cases hot : PyJson.truthy ((pfs.lookup "online").getD (.bool false)) with
      | false =>
        refine ⟨⟨uname, .OFFLINE, none,
          some (THUMBNAIL_BASE_URL ++ "/" ++ uname),
          some (uname ++ ": Performer is currently offline")⟩, ?_,
          Or.inr (Or.inl rfl)⟩
        simp [check_performer, hu, hg, hpt, hgo, hot]
      | true =>
        cases hgs : get_stream_info t.stream with
        | none =>
          refine ⟨⟨uname, .ONLINE_NOT_STREAMING, none,
            some (THUMBNAIL_BASE_URL ++ "/" ++ uname),
            some (uname ++ ": Performer is online but not currently streaming")⟩,
            ?_, Or.inr (Or.inr (Or.inl rfl))⟩
          simp [check_performer, hu, hg, hpt, hgo, hot, hgs]
        | some d =>
          obtain ⟨dfs, rfl⟩ := gsi_dict_of_safe hs hgs
          have hdt : PyJson.truthy (.dict dfs) = true := gsi_truthy_of_some hgs
          have hcg : pyGet (.dict dfs) "cdnURL" .null =
              .ok ((dfs.lookup "cdnURL").getD .null) := rfl
          cases hct : PyJson.truthy ((dfs.lookup "cdnURL").getD .null) with
          | false =>
            refine ⟨⟨uname, .ONLINE_NOT_STREAMING, none,
              some (THUMBNAIL_BASE_URL ++ "/" ++ uname),
              some (uname ++ ": Stream info found but no playlist URL available")⟩,
              ?_, Or.inr (Or.inr (Or.inl rfl))⟩
            simp [check_performer, hu, hg, hpt, hgo, hot, hgs, hdt, hcg, hct]
          | true =>
            by_cases hv : (verify_stream_accessible t.probe).fst = false
            · refine ⟨⟨uname, .PRIVATE_OR_AWAY, none,
                some (THUMBNAIL_BASE_URL ++ "/" ++ uname),
                some (uname ++ ": " ++
                  pyStrOfOpt (verify_stream_accessible t.probe).snd)⟩, ?_,
                Or.inr (Or.inr (Or.inr (Or.inl rfl)))⟩
              simp [check_performer, hu, hg, hpt, hgo, hot, hgs, hdt, hcg,
                hct, hv]
            · refine ⟨⟨uname, .STREAMING,
                some ((dfs.lookup "cdnURL").getD .null),
                some (THUMBNAIL_BASE_URL ++ "/" ++ uname), none⟩, ?_,
                Or.inr (Or.inr (Or.inr (Or.inr rfl)))⟩
              simp [check_performer, hu, hg, hpt, hgo, hot, hgs, hdt, hcg,
                hct, hv]

/-- Witness for C3: a transport faulting at every step still yields a
classified result. -/
theorem cam4_resolve_total_five_states_witness :
    ∃ info, (check_performer "https://www.cam4.com/foo" faultyTransport).fst =
      .ok info ∧
      (info.status = .NOT_FOUND ∨ info.status = .OFFLINE ∨
       info.status = .ONLINE_NOT_STREAMING ∨ info.status = .PRIVATE_OR_AWAY ∨
       info.status = .STREAMING) :=
  cam4_resolve_total_five_states "https://www.cam4.com/foo" faultyTransport
    "foo" rfl rfl rfl

/-- C6: invoking the recording operation when resolution returned a
non-`STREAMING` result raises `CAM4Error` carrying exactly that result
classification and message; the returned error means the external encoding
process spawn is never reached. -/
theorem cam4_record_non_streaming_raises (url : String) (t : Transport)
    (info : PerformerInfo) (output_path : Option String) (ts : String)
    (ffargs : List String)
    (hc : (check_performer url t).fst = .ok info)
    (hns : info.status ≠ .STREAMING) :
    record_stream url t output_path ts ffargs =
      .error (.cam4Error info.error_message info.status) := by
  simp only [record_stream, hc]
  rw [if_pos hns]

/-- Witness for C6 on a concrete `NOT_FOUND` resolution. -/
theorem cam4_record_non_streaming_raises_witness :
    (check_performer "https://www.cam4.com/foo" faultyTransport).fst =
      .ok ⟨"foo", .NOT_FOUND, none, none, some ("foo: Performer not found")⟩ ∧
    record_stream "https://www.cam4.com/foo" faultyTransport none
      "20260101_000000" [] =
      .error (.cam4Error (some ("foo: Performer not found")) .NOT_FOUND) :=
  ⟨rfl, cam4_record_non_streaming_raises "https://www.cam4.com/foo"
    faultyTransport
    ⟨"foo", .NOT_FOUND, none, none, some ("foo: Performer not found")⟩
    none "20260101_000000" [] rfl (by decide)⟩

/-- C10: on every input URL and transport behaviour, the two standalone
implementations of `check_performer` agree on the returned status, stream
URL and thumbnail URL (and on any raised exception); only their
human-readable messages can differ. -/
theorem cam4_two_impls_equivalent (url : String) (t : Transport) :
    exView (check_performer url t).fst = exView (checkPerformer2 url t) := by
  cases hx : extract_username url with
  | error e =>
    simp [check_performer, checkPerformer2, exView, Except.map, hx]
  | ok uname =>
    cases hg : get_profile_info t.profile with
    | none =>
      simp [check_performer, checkPerformer2, gpi2_eq_gpi, exView, Except.map, hx, hg]
    | some p =>
      cases hpt : PyJson.truthy p with
      | false =>
        simp [check_performer, checkPerformer2, gpi2_eq_gpi, exView, Except.map, hx, hg,
          hpt]
      | true =>
        cases hpg : pyGet p "online" (.bool false) with
        | error e =>
          simp [check_performer, checkPerformer2, gpi2_eq_gpi, exView, Except.map, hx, hg,
            hpt, hpg]
        | ok ob =>
          cases hot : PyJson.truthy ob with
          | false =>
            simp [check_performer, checkPerformer2, gpi2_eq_gpi, exView, Except.map, hx,
              hg, hpt, hpg, hot]
          | true =>
            cases hgs : get_stream_info t.stream with
            | none =>
              simp [check_performer, checkPerformer2, gpi2_eq_gpi,
                gsi2_eq_gsi, exView, Except.map, hx, hg, hpt, hpg, hot, hgs]
            | some d =>
              cases hdt : PyJson.truthy d with
              | false =>
                simp [check_performer, checkPerformer2, gpi2_eq_gpi,
                  gsi2_eq_gsi, exView, Except.map, hx, hg, hpt, hpg, hot, hgs, hdt]
              | true =>
                cases hcg : pyGet d "cdnURL" .null with
                | error e =>
                  simp [check_performer, checkPerformer2, gpi2_eq_gpi,
                    gsi2_eq_gsi, exView, Except.map, hx, hg, hpt, hpg, hot, hgs, hdt, hcg]
                | ok c =>
                  cases hct : PyJson.truthy c with
                  | false =>
                    simp [check_performer, checkPerformer2, gpi2_eq_gpi,
                      gsi2_eq_gsi, exView, Except.map, hx, hg, hpt, hpg, hot, hgs, hdt,
                      hcg, hct]
                  | true =>
                    have hsub : pySubscript d "cdnURL" = .ok c :=
                      pySubscript_eq_of_pyGet hcg hct
                    by_cases hv : (verify_stream_accessible t.probe).fst = false
                    · simp [check_performer, checkPerformer2, gpi2_eq_gpi,
                        gsi2_eq_gsi, verify2_eq_verify, exView, Except.map, hx, hg, hpt,
                        hpg, hot, hgs, hdt, hcg, hct, hsub, hv]
                    · simp [check_performer, checkPerformer2, gpi2_eq_gpi,
                        gsi2_eq_gsi, verify2_eq_verify, exView, Except.map, hx, hg, hpt,
                        hpg, hot, hgs, hdt, hcg, hct, hsub, hv]
